import Mathlib

/-
  Shallow embedding of ygorcosta/marble-timestamp:
    - lib/syntax.js        (updateMomentSyntax)
    - src/Timestamp.js     (ES-module Timestamp.attached and the bundled
                            CommonJS build of the same method)
    - the metal Component base class (lifecycle, state-change batching,
                            renderer integration)
  External libraries (moment, the DOM, the renderer implementation) are
  modelled by explicit environments and by action traces: a method returns
  the updated component state together with the list of observable effects
  it performed, in order.
-/

namespace Marble

/-! ## moment locale model (external library, modelled minimally)

moment.updateLocale merges the given config object into the named locale.
We only track the relativeTime configuration, which is the only part this
repository touches: the update object is either empty (no relativeTime key)
or carries a full relativeTime table. -/

structure RelativeTime where
  future : String
  past : String
  s : String
  ss : String
  m : String
  mm : String
  h : String
  hh : String
  d : String
  dd : String
  M : String
  MM : String
  y : String
  yy : String
deriving DecidableEq, Repr

structure MomentLocale where
  relativeTime : RelativeTime
deriving DecidableEq, Repr

/-- moment.updateLocale for the parts this repository uses: with an update
object carrying a relativeTime table the table is replaced, with an empty
update object the locale is unchanged; the (updated) locale is returned. -/
def updateLocale (loc : MomentLocale) (obj : Option RelativeTime) : MomentLocale :=
  match obj with
  | some rt => { relativeTime := rt }
  | none => loc

def timestampType : String := "timestamp"

def durationType : String := "duration"

/-- The relativeTime table built in lib/syntax.js for type "timestamp". -/
def timestampRelativeTime : RelativeTime :=
  ⟨"in %s", "%s ago", "now", "%d sec ago", "1 min ago", "%d min ago",
   "1 hour ago", "%d hours ago", "1 day ago", "%d days ago",
   "1 month ago", "%d months ago", "1 year ago", "%d years ago"⟩

/-- The relativeTime table built in lib/syntax.js for type "duration". -/
def durationRelativeTime : RelativeTime :=
  ⟨"in %s", "%s ago", "now", "%ds", "1min", "%dmin",
   "1h", "%dh", "1d", "%dd", "1mo", "%dmo", "1y", "%dy"⟩

/-- The relativeTimeObject variable of updateMomentSyntax: initialized to the
empty object and overwritten only for the two recognized types. `none` models
the empty object (no relativeTime key). -/
def relativeTimeObjectFor (type : String) : Option RelativeTime :=
  if type = timestampType then some timestampRelativeTime
  else if type = durationType then some durationRelativeTime
  else none

/-- lib/syntax.js updateMomentSyntax: the argument defaults to "timestamp"
when absent; the function builds relativeTimeObject and returns
moment.updateLocale("en", relativeTimeObject). The returned locale is also
the new locale state. -/
def updateMomentSyntax (type : Option String) (loc : MomentLocale) : MomentLocale :=
  updateLocale loc (relativeTimeObjectFor (type.getD timestampType))

/-! ## Timestamp component (src/Timestamp.js)

State keys relevant to attached(): time (Config.number, default 0),
hasTitle (Config.bool, default false), label (Config.string, default ""),
title (Config.string, default undefined, modelled as Option String).
`time` is declared Config.number; we model it as an integer, on which
parseInt(time, 10) is the identity and JS truthiness is inequality to 0. -/

structure TimestampState where
  time : Int
  hasTitle : Bool
  label : String
  title : Option String
deriving DecidableEq, Repr

/-- External moment operations used by attached(): fromNowNoSuffix models
moment(ts).fromNow(true) under the current locale, tzGuess models
moment.tz.guess(), and formatTz ts z models
moment(ts).tz(z).format("MMM DD YYYY, h:mma (UTCZ)"). -/
structure MomentEnv where
  fromNowNoSuffix : MomentLocale → Int → String
  tzGuess : String
  formatTz : Int → String → String

/-- parseInt(x, 10) applied to an integral JS number is the identity. -/
def parseIntBase10 : Int → Int := fun n => n

structure TsWorld where
  locale : MomentLocale
  st : TimestampState
deriving DecidableEq, Repr

namespace Timestamp

/-- src/Timestamp.js attached() (ES-module source): returns immediately on
the server; when this.time is truthy it updates the moment syntax for
"timestamp", sets label to moment(parseInt(time, 10)).fromNow(true), and,
when this.hasTitle, sets title to the formatted instant in the guessed
timezone. -/
def attached (env : MomentEnv) (serverSide : Bool) (w : TsWorld) : TsWorld :=
  if serverSide then w
  else if w.st.time ≠ 0 then
    let locale2 := updateMomentSyntax (some timestampType) w.locale
    let timestamp := parseIntBase10 w.st.time
    let st2 := { w.st with label := env.fromNowNoSuffix locale2 timestamp }
    let st3 :=
      if st2.hasTitle then
        { st2 with title := some (env.formatTz timestamp env.tzGuess) }
      else st2
    ⟨locale2, st3⟩
  else w

end Timestamp

/-! ## Bundled CommonJS build of Timestamp (second document in
src/Timestamp.js)

Its attached() reads the state key createdAt and, when createdAt is truthy,
its first statement calls relativeTimeSyntax("timestamp"). No binding named
relativeTimeSyntax exists anywhere in the bundle (the ./syntax import is
bound to _syntax and never referenced), so in strict mode that statement
throws a ReferenceError before label or title is assigned. -/

structure CjsTimestampState where
  createdAt : Int
  hasTitle : Bool
  label : String
  title : Option String
deriving DecidableEq, Repr

structure CjsWorld where
  locale : MomentLocale
  st : CjsTimestampState
deriving DecidableEq, Repr

inductive JsError where
  | referenceError (name : String)
deriving DecidableEq, Repr

def relativeTimeSyntaxName : String := "relativeTimeSyntax"

namespace Timestamp

/-- Bundled CommonJS attached(): returns immediately on the server; when
this.createdAt is truthy it evaluates the undefined identifier
relativeTimeSyntax and throws a ReferenceError, leaving label and title
unassigned; when createdAt is falsy it does nothing. -/
def attachedCjs (serverSide : Bool) (w : CjsWorld) : Except JsError CjsWorld :=
  if serverSide then Except.ok w
  else if w.st.createdAt ≠ 0 then
    Except.error (JsError.referenceError relativeTimeSyntaxName)
  else Except.ok w

end Timestamp

/-! ## metal Component base class (src/unnamed/part_000)

A component method is modelled as a pure function from the component record
(and its arguments) to the updated record together with the ordered list of
observable effects it performed: events emitted on the component, lifecycle
methods invoked, DOM operations, and calls into the renderer, the data
manager, the event proxy and the sync system. DOM elements carry an
identity and whether they currently have a parentNode. -/

structure El where
  id : Nat
  hasParentNode : Bool
deriving DecidableEq, Repr

/-- The value stored in elementValue_. It starts undefined; the setter can
store an element, null, undefined, or keep an empty string (a falsy string
skips toElement resolution and is stored as is). -/
inductive StoredEl where
  | undef
  | nullE
  | emptyStr
  | el (e : El)
deriving DecidableEq, Repr

/-- JS truthiness of the stored element value. -/
def StoredEl.truthy : StoredEl → Bool
  | .el _ => true
  | _ => false

/-- A value assigned to the element property. otherV stands for any value
that is defined and non-null but neither a DOM element nor a string. -/
inductive ElVal where
  | undef
  | nullV
  | strV (s : String)
  | elV (e : El)
  | otherV
deriving DecidableEq, Repr

/-- One entry of a stateChanged batch, and the payload of a stateKeyChanged
event: the changed key with its previous and new values (values are
abstracted to integers). -/
structure KeyChange where
  key : String
  prevVal : Int
  newVal : Int
deriving DecidableEq, Repr

/-- The data argument of updateRenderer_: the changes it carries and
whether the forceUpdate flag is truthy on it (a plain stateChanged event
has no forceUpdate field, hence false). -/
structure UpdateData where
  changes : List KeyChange
  forceUpdate : Bool
deriving DecidableEq, Repr

/-- The config object passed to the Component constructor; only the element
key is tracked (absent keys are undefined). -/
structure InitConfig where
  element : ElVal
deriving DecidableEq, Repr

/-- Observable effects of component methods, in program order. -/
inductive Action where
  | emitWillAttach
  | lifecycleWillAttach
  | attachElementAct (parent sibling : Option El)
  | emitAttached (parent sibling : Option El)
  | lifecycleAttached
  | emitWillDetach
  | lifecycleWillDetach
  | removeElementAct (e : El)
  | lifecycleDetached
  | emitDetached
  | lifecycleDisposed
  | emitDisposed
  | disposeProxy
  | disposeDataManager
  | disposeRenderer
  | superDispose
  | rendererRender
  | emitRender
  | rendererUpdate (d : UpdateData)
  | syncStateAll
  | syncStateChanges (cs : List KeyChange)
  | emitStateSynced (cs : List KeyChange)
  | lifecycleCreated
  | setUpRendererAct
  | setUpDataManagerAct
  | setUpPortalAct
  | addListenersAct
  | setOriginEmitterAct (v : StoredEl)
  | emitElementChanged (prev next : StoredEl)
  | syncVisibleAct
  | devToolsHook
  | runForceUpdateCallback (cb : Nat)
  | lifecycleRendered (first : Bool)
  | emitRendered (first : Bool)
deriving DecidableEq, Repr

/-- The component record: the fields of Component that the embedded methods
read or write. elementEventProxy_, dataManager_ and renderer_ are tracked
only as being non-null; forceUpdateCallback_ holds an abstract callback
identifier when pending. -/
structure Comp where
  inDocument : Bool
  wasRendered : Bool
  componentCreated_ : Bool
  hasRendererRendered_ : Bool
  skipUpdates_ : Bool
  syncUpdates_ : Bool
  forceUpdateCallback_ : Option Nat
  elementValue_ : StoredEl
  attachData_ : Option (Option El × Option El)
  initialConfig_ : InitConfig
  elementEventProxy_ : Bool
  dataManager_ : Bool
  renderer_ : Bool
deriving DecidableEq, Repr

/-- Global environment: selector resolution for metal-dom toElement, the
isServerSide flag, and whether window.__METAL_DEV_TOOLS_HOOK__ is set. -/
structure DomEnv where
  toElement : String → Option El
  serverSide : Bool
  devToolsHook : Bool

namespace Comp

/-- hasSyncUpdates(): returns this.syncUpdates_. -/
def hasSyncUpdates (c : Comp) : Bool := c.syncUpdates_

/-- updateRenderer_(data): when data.forceUpdate is falsy the pending
forceUpdateCallback_ is cleared; then renderer.update(this, data) runs only
when updates are not being skipped and the renderer has already done its
first render. -/
def updateRenderer_ (c : Comp) (data : UpdateData) : Comp × List Action :=
  let c2 := if data.forceUpdate then c else { c with forceUpdateCallback_ := none }
  if ¬c2.skipUpdates_ ∧ c2.hasRendererRendered_ then
    (c2, [Action.rendererUpdate data])
  else
    (c2, [])

/-- handleComponentStateChanged_(event): when sync updates are off the
renderer update runs with the whole batch; then syncState runs over the
changes and stateSynced is emitted. -/
def handleComponentStateChanged_ (c : Comp) (changes : List KeyChange) :
    Comp × List Action :=
  let p := if ¬c.hasSyncUpdates then updateRenderer_ c ⟨changes, false⟩ else (c, [])
  (p.1, p.2 ++ [Action.syncStateChanges changes, Action.emitStateSynced changes])

/-- handleComponentStateKeyChanged_(data): renderer update with the single
changed key. -/
def handleComponentStateKeyChanged_ (c : Comp) (data : KeyChange) :
    Comp × List Action :=
  updateRenderer_ c ⟨[data], false⟩

/-- A stateKeyChanged event reaching the component: setUpSyncUpdates_
registers handleComponentStateKeyChanged_ as a listener only when
SYNC_UPDATES is true, so the handler runs only in that case. -/
def dispatchStateKeyChanged (c : Comp) (data : KeyChange) : Comp × List Action :=
  if c.hasSyncUpdates then handleComponentStateKeyChanged_ c data else (c, [])

/-- startSkipUpdates(): skip renderer updates from now on. -/
def startSkipUpdates (c : Comp) : Comp := { c with skipUpdates_ := true }

/-- stopSkipUpdates(): stop skipping renderer updates. -/
def stopSkipUpdates (c : Comp) : Comp := { c with skipUpdates_ := false }

/-- forceUpdate(callback): stores the callback and calls updateRenderer_
with forceUpdate true (and no changes key on the data object). -/
def forceUpdate (c : Comp) (cb : Nat) : Comp × List Action :=
  updateRenderer_ { c with forceUpdateCallback_ := some cb } ⟨[], true⟩

/-- informRendered(): records the first render, runs and clears any pending
forceUpdate callback, then runs the rendered lifecycle and emits rendered. -/
def informRendered (c : Comp) : Comp × List Action :=
  let first := ¬c.hasRendererRendered_
  let c1 := { c with hasRendererRendered_ := true }
  let p :=
    match c1.forceUpdateCallback_ with
    | some cb => ({ c1 with forceUpdateCallback_ := none },
                  [Action.runForceUpdateCallback cb])
    | none => (c1, [])
  (p.1, p.2 ++ [Action.lifecycleRendered first, Action.emitRendered first])

/-- attachElement(parentElement, siblingElement): inserts the element into
the DOM only when the element exists and either a sibling was given or the
element has no parentNode yet. The insertion itself is abstracted as an
action carrying the raw arguments. -/
def attachElement (c : Comp) (parent sibling : Option El) : List Action :=
  match c.elementValue_ with
  | .el e =>
    if sibling.isSome ∨ ¬e.hasParentNode then [Action.attachElementAct parent sibling]
    else []
  | _ => []

/-- attach(parentElement, siblingElement): when not yet in the document,
emits willAttach, runs the willAttach lifecycle, attaches the element, sets
inDocument and attachData_, emits attached with the attach data, and runs
the attached lifecycle; otherwise does nothing. Returns this. -/
def attach (c : Comp) (parent sibling : Option El) : Comp × List Action :=
  if ¬c.inDocument then
    ({ c with inDocument := true, attachData_ := some (parent, sibling) },
     [Action.emitWillAttach, Action.lifecycleWillAttach]
       ++ attachElement c parent sibling
       ++ [Action.emitAttached parent sibling, Action.lifecycleAttached])
  else
    (c, [])

/-- The element-removal step of detach(): removeChild runs only when the
element exists and has a parentNode. -/
def removeElementActs (c : Comp) : List Action :=
  match c.elementValue_ with
  | .el e => if e.hasParentNode then [Action.removeElementAct e] else []
  | _ => []

/-- detach(): when in the document, emits willDetach, runs the willDetach
lifecycle, removes the element from its parentNode when it has one, clears
inDocument and runs the detached lifecycle; in every case it then emits
detached and returns this. -/
def detach (c : Comp) : Comp × List Action :=
  if c.inDocument then
    ({ c with inDocument := false },
     [Action.emitWillDetach, Action.lifecycleWillDetach]
       ++ removeElementActs c
       ++ [Action.lifecycleDetached, Action.emitDetached])
  else
    (c, [Action.emitDetached])

/-- disposeInternal(): detach, disposed lifecycle, disposed event, then
dispose and null out the element event proxy, the data manager and the
renderer, in that order, then the superclass disposal. -/
def disposeInternal (c : Comp) : Comp × List Action :=
  let p := detach c
  ({ p.1 with elementEventProxy_ := false, dataManager_ := false, renderer_ := false },
   p.2 ++ [Action.lifecycleDisposed, Action.emitDisposed, Action.disposeProxy,
           Action.disposeDataManager, Action.disposeRenderer, Action.superDispose])

/-- handleComponentElementChanged_(prevVal, newVal): re-targets the event
proxy; once the component is created it also emits elementChanged and, when
the new value is truthy and the component was rendered, syncs visibility. -/
def handleComponentElementChanged_ (c : Comp) (prev next : StoredEl) : List Action :=
  Action.setOriginEmitterAct next ::
    (if c.componentCreated_ then
      Action.emitElementChanged prev next ::
        (if next.truthy ∧ c.wasRendered then [Action.syncVisibleAct] else [])
    else [])

/-- set element(val): returns early when val is defined and non-null but
neither an element nor a string; a truthy val is resolved through toElement,
falling back to the current stored value when resolution fails; only a
strictly different resolved value is stored and notified. -/
def setElement (env : DomEnv) (c : Comp) (val : ElVal) : Comp × List Action :=
  match val with
  | .otherV => (c, [])
  | _ =>
    let v2 : StoredEl :=
      match val with
      | .elV e => .el e
      | .strV s =>
        if s = "" then .emptyStr
        else
          match env.toElement s with
          | some e => .el e
          | none => c.elementValue_
      | .nullV => .nullE
      | _ => .undef
    if c.elementValue_ ≠ v2 then
      ({ c with elementValue_ := v2 },
       handleComponentElementChanged_ { c with elementValue_ := v2 } c.elementValue_ v2)
    else
      (c, [])

/-- renderComponent(parentElement): when the renderer has not yet rendered,
runs the dev-tools hook (client side only, when installed) and
renderer.render(this); then emits render, runs syncState over all keys,
attaches to the given parent and records wasRendered. -/
def renderComponent (env : DomEnv) (c : Comp) (parent : Option El) :
    Comp × List Action :=
  let a1 : List Action :=
    if ¬c.hasRendererRendered_ then
      (if ¬env.serverSide ∧ env.devToolsHook then [Action.devToolsHook] else [])
        ++ [Action.rendererRender]
    else []
  let p := attach c parent none
  ({ p.1 with wasRendered := true },
   a1 ++ [Action.emitRender, Action.syncStateAll] ++ p.2)

end Comp

/-- The parentElement argument of the Component constructor: exactly false
(suppress automatic rendering), or a parent argument (undefined or an
element; selector strings are resolved by attach the same way and are not
modelled separately). -/
inductive ParentArg where
  | falseV
  | arg (p : Option El)
deriving DecidableEq, Repr

namespace Comp

/-- The component record as the constructor initializes it, before the
element setter runs: not in the document, not rendered, no pending
callbacks, element undefined, proxy, data manager and renderer set up.
syncUpdates_ is the SYNC_UPDATES static property of the concrete class. -/
def initialComp (syncUpdates : Bool) (config : InitConfig) : Comp :=
  { inDocument := false
    wasRendered := false
    componentCreated_ := false
    hasRendererRendered_ := false
    skipUpdates_ := false
    syncUpdates_ := syncUpdates
    forceUpdateCallback_ := none
    elementValue_ := .undef
    attachData_ := none
    initialConfig_ := config
    elementEventProxy_ := true
    dataManager_ := true
    renderer_ := true }

/-- new Component(config, parentElement): field initialization, the element
setter with initialConfig_.element, renderer, data manager, sync-updates and
portal setup, event listeners, then the created lifecycle, then — unless
parentElement is exactly false — renderComponent(parentElement). A missing
config is replaced by the empty object. -/
def componentCtor (env : DomEnv) (syncUpdates : Bool) (config : Option InitConfig)
    (parent : ParentArg) : Comp × List Action :=
  let cfg := config.getD ⟨ElVal.undef⟩
  let p1 := setElement env (initialComp syncUpdates cfg) cfg.element
  let a2 := p1.2 ++ [Action.setUpRendererAct, Action.setUpDataManagerAct,
                     Action.setUpPortalAct, Action.addListenersAct,
                     Action.lifecycleCreated]
  let c2 := { p1.1 with componentCreated_ := true }
  match parent with
  | .falseV => (c2, a2)
  | .arg p =>
    let p3 := renderComponent env c2 p
    (p3.1, a2 ++ p3.2)

/-- The configOrElement argument of static Component.render. -/
inductive ConfigOrEl where
  | cfgArg (cfg : InitConfig)
  | elArg (e : El)
  | undefArg
deriving DecidableEq, Repr

/-- The argument normalization at the top of static Component.render: when
configOrElement is a DOM element the config becomes null and that element
becomes the render parent; otherwise the two arguments are kept. -/
def staticRenderArgs (coe : ConfigOrEl) (element : Option El) :
    Option InitConfig × Option El :=
  match coe with
  | .elArg e => (none, some e)
  | .cfgArg cfg => (some cfg, element)
  | .undefArg => (none, element)

/-- static Component.render(Ctor, configOrElement, element): normalizes the
arguments, constructs the instance with false so that it is not rendered
automatically, calls renderComponent with the element, and returns the
instance. -/
def staticRender (env : DomEnv) (syncUpdates : Bool) (coe : ConfigOrEl)
    (element : Option El) : Comp × List Action :=
  let q := staticRenderArgs coe element
  let p1 := componentCtor env syncUpdates q.1 ParentArg.falseV
  let p2 := renderComponent env p1.1 q.2
  (p2.1, p1.2 ++ p2.2)

end Comp

/-! ## Trace observation helpers -/

/-- The renderer.update calls recorded in a trace, with their data. -/
def rendererUpdates (as : List Action) : List UpdateData :=
  as.filterMap fun a =>
    match a with
    | .rendererUpdate d => some d
    | _ => none

/-- Whether an action is a rendering step (a renderer.render call or the
render event of renderComponent). -/
def Action.isRenderish : Action → Bool
  | .rendererRender => true
  | .emitRender => true
  | _ => false

/-- Number of created-lifecycle calls in a trace. -/
def countCreated : List Action → Nat
  | [] => 0
  | a :: rest => (if a = Action.lifecycleCreated then 1 else 0) + countCreated rest

/-- Number of rendering steps in a trace. -/
def countRenderish : List Action → Nat
  | [] => 0
  | a :: rest => (if a.isRenderish then 1 else 0) + countRenderish rest

theorem countCreated_append (l1 l2 : List Action) :
    countCreated (l1 ++ l2) = countCreated l1 + countCreated l2 := by
  induction l1 with
  | nil => simp [countCreated]
  | cons a t ih => simp [countCreated, ih, Nat.add_assoc]

theorem countRenderish_append (l1 l2 : List Action) :
    countRenderish (l1 ++ l2) = countRenderish l1 + countRenderish l2 := by
  induction l1 with
  | nil => simp [countRenderish]
  | cons a t ih => simp [countRenderish, ih, Nat.add_assoc]

/-! ## Concrete values used by witnesses and counterexamples -/

def demoLocale : MomentLocale := ⟨timestampRelativeTime⟩

def demoEnv : MomentEnv :=
  { fromNowNoSuffix := fun _ _ => "a few sec ago"
    tzGuess := "Etc/UTC"
    formatTz := fun _ _ => "Jan 01 1970, 12:00am (UTC+00:00)" }

def demoWorld : TsWorld := ⟨demoLocale, ⟨1000, false, "", none⟩⟩

def demoWorldT : TsWorld := ⟨demoLocale, ⟨1000, true, "", none⟩⟩

def demoCjsWorld : CjsWorld := ⟨demoLocale, ⟨1000, false, "", none⟩⟩

def demoEl : El := ⟨1, false⟩

def demoDomEnv : DomEnv := ⟨fun _ => none, false, false⟩

def othType : String := "other"

def demoConfig : InitConfig := ⟨ElVal.undef⟩

/-- A component already attached to the document. -/
def demoCompIn : Comp := { Comp.initialComp false demoConfig with inDocument := true }

/-- A component not in the document. -/
def demoCompOut : Comp := Comp.initialComp false demoConfig

/-- A rendered component currently skipping updates. -/
def demoCompSkip : Comp :=
  { Comp.initialComp false demoConfig with
      skipUpdates_ := true, hasRendererRendered_ := true,
      forceUpdateCallback_ := some 7 }

/-- A rendered component with batched (asynchronous) updates. -/
def demoCompAsync : Comp :=
  { Comp.initialComp false demoConfig with hasRendererRendered_ := true }

/-- A component whose stored element is demoEl. -/
def demoCompEl : Comp :=
  { Comp.initialComp false demoConfig with elementValue_ := StoredEl.el demoEl }

def demoKeyChange : KeyChange := ⟨"visible", 0, 1⟩

def demoChanges : List KeyChange := [demoKeyChange]

def demoData : UpdateData := ⟨demoChanges, false⟩

/-! ## Claims -/

/-- C8: updateMomentSyntax called with no argument behaves exactly as if
called with "timestamp"; for every type other than "timestamp" and
"duration" it passes the empty object to moment.updateLocale("en", ...),
leaving the existing relativeTime configuration of the locale untouched
while still returning the result of updateLocale. -/
theorem updateMomentSyntax_default_and_unknown_type :
    (∀ loc, updateMomentSyntax none loc = updateMomentSyntax (some timestampType) loc) ∧
    (∀ t loc, t ≠ timestampType → t ≠ durationType →
      relativeTimeObjectFor t = none ∧
      (updateMomentSyntax (some t) loc).relativeTime = loc.relativeTime ∧
      updateMomentSyntax (some t) loc = updateLocale loc none) := by
  constructor
  · intro loc
    rfl
  · intro t loc h1 h2
    have hobj : relativeTimeObjectFor t = none := by
      simp [relativeTimeObjectFor, h1, h2]
    refine ⟨hobj, ?_, ?_⟩ <;>
      simp [updateMomentSyntax, hobj, updateLocale]

/-- Witness for C8 at the concrete type "other" and the demo locale. -/
theorem updateMomentSyntax_default_and_unknown_type_witness :
    relativeTimeObjectFor othType = none ∧
    (updateMomentSyntax (some othType) demoLocale).relativeTime = demoLocale.relativeTime ∧
    updateMomentSyntax (some othType) demoLocale = updateLocale demoLocale none :=
  updateMomentSyntax_default_and_unknown_type.2 othType demoLocale
    (by decide) (by decide)

/-- C2: on the server attached() leaves the world unchanged; client side,
with falsy time it leaves the world unchanged, and with truthy time it sets
label to the suffix-less relative rendering of parseInt(time, 10) under the
timestamp syntax, and sets title to the formatted instant in the guessed
timezone exactly when hasTitle is true. -/
theorem Timestamp.attached_spec :
    ∀ (env : MomentEnv) (ss : Bool) (w : TsWorld),
    (ss = true → Timestamp.attached env ss w = w) ∧
    (ss = false → w.st.time = 0 → Timestamp.attached env ss w = w) ∧
    (ss = false → w.st.time ≠ 0 →
      (Timestamp.attached env ss w).st.label =
        env.fromNowNoSuffix (updateMomentSyntax (some timestampType) w.locale)
          (parseIntBase10 w.st.time) ∧
      (w.st.hasTitle = true →
        (Timestamp.attached env ss w).st.title =
          some (env.formatTz (parseIntBase10 w.st.time) env.tzGuess)) ∧
      (w.st.hasTitle = false →
        (Timestamp.attached env ss w).st.title = w.st.title) ∧
      (Timestamp.attached env ss w).st.time = w.st.time ∧
      (Timestamp.attached env ss w).st.hasTitle = w.st.hasTitle) := by
  intro env ss w
  refine ⟨?_, ?_, ?_⟩
  · intro h
    subst h
    simp [Timestamp.attached]
  · intro h h0
    subst h
    simp [Timestamp.attached, h0]
  · intro h h0
    subst h
    cases hT : w.st.hasTitle <;>
      simp [Timestamp.attached, h0, hT]

/-- Witness for C2 at the demo environment and a world with time 1000 and
hasTitle true. -/
theorem Timestamp.attached_spec_witness :
    (Timestamp.attached demoEnv false demoWorldT).st.label =
      demoEnv.fromNowNoSuffix (updateMomentSyntax (some timestampType) demoWorldT.locale)
        (parseIntBase10 demoWorldT.st.time) ∧
    (Timestamp.attached demoEnv false demoWorldT).st.title =
      some (demoEnv.formatTz (parseIntBase10 demoWorldT.st.time) demoEnv.tzGuess) :=
  ⟨((Timestamp.attached_spec demoEnv false demoWorldT).2.2 rfl (by decide)).1,
   ((Timestamp.attached_spec demoEnv false demoWorldT).2.2 rfl (by decide)).2.1 rfl⟩

/-- C1: at a state with creation time 1000, client side, the ES-module
attached() assigns the relative-time label and terminates, while the
bundled CommonJS attached() throws a ReferenceError on the undefined
identifier relativeTimeSyntax before assigning anything: the two builds are
not behaviorally equivalent. -/
theorem bundled_attached_diverges_from_source :
    Timestamp.attachedCjs false demoCjsWorld =
      Except.error (JsError.referenceError relativeTimeSyntaxName) ∧
    Timestamp.attached demoEnv false demoWorld =
      ⟨demoLocale, ⟨1000, false, "a few sec ago", none⟩⟩ := by
  exact ⟨rfl, rfl⟩

/-- C4: attach is a no-op for a component already in the document: the
component is unchanged (inDocument, attachData_ and all other fields), no
event is emitted, no lifecycle method runs, the element is not moved, and
the component itself is returned. -/
theorem Comp.attach_idempotent :
    ∀ (c : Comp) (parent sibling : Option El),
      c.inDocument = true → Comp.attach c parent sibling = (c, []) := by
  intro c parent sibling h
  simp [Comp.attach, h]

/-- Witness for C4 on a concrete attached component. -/
theorem Comp.attach_idempotent_witness :
    Comp.attach demoCompIn none none = (demoCompIn, []) :=
  Comp.attach_idempotent demoCompIn none none rfl

/-- C5: disposeInternal performs, in order, the detach steps, the disposed
lifecycle, the disposed event, and the disposal of the element event proxy,
the data manager and the renderer (each then nulled out), before the
superclass disposal. -/
theorem Comp.disposeInternal_order :
    ∀ c : Comp,
      (Comp.disposeInternal c).2 =
        (Comp.detach c).2 ++
          [Action.lifecycleDisposed, Action.emitDisposed, Action.disposeProxy,
           Action.disposeDataManager, Action.disposeRenderer, Action.superDispose] ∧
      (Comp.disposeInternal c).1 =
        { (Comp.detach c).1 with
            elementEventProxy_ := false, dataManager_ := false, renderer_ := false } := by
  intro c
  exact ⟨rfl, rfl⟩

/-- C10: detach always emits the detached event and always leaves the
component out of the document; when the component was not in the document,
nothing else happens: no willDetach event or lifecycle, no element removal,
and the component state is unchanged and returned. -/
theorem Comp.detach_spec :
    ∀ c : Comp,
      (Comp.detach c).1.inDocument = false ∧
      (∃ pre, (Comp.detach c).2 = pre ++ [Action.emitDetached]) ∧
      (c.inDocument = false → Comp.detach c = (c, [Action.emitDetached])) := by
  intro c
  cases hc : c.inDocument
  · refine ⟨?_, ⟨[], ?_⟩, ?_⟩ <;> simp [Comp.detach, hc]
  · refine ⟨?_, ?_, ?_⟩
    · simp [Comp.detach, hc]
    · refine ⟨[Action.emitWillDetach, Action.lifecycleWillDetach]
        ++ Comp.removeElementActs c ++ [Action.lifecycleDetached], ?_⟩
      simp [Comp.detach, hc]
    · exact fun h => Bool.noConfusion h

/-- Witness for C10 on a concrete component that is not in the document. -/
theorem Comp.detach_spec_witness :
    Comp.detach demoCompOut = (demoCompOut, [Action.emitDetached]) :=
  (Comp.detach_spec demoCompOut).2.2 rfl

/-- C6: startSkipUpdates turns skipping on and stopSkipUpdates turns it
off; updateRenderer_ never calls renderer.update while skipping is on or
while the renderer has not completed its first render; and every
updateRenderer_ call whose data lacks a truthy forceUpdate clears any
pending forceUpdate callback. -/
theorem Comp.updateRenderer_skip_spec :
    ∀ (c : Comp) (d : UpdateData),
      (Comp.startSkipUpdates c).skipUpdates_ = true ∧
      (Comp.stopSkipUpdates c).skipUpdates_ = false ∧
      (c.skipUpdates_ = true →
        rendererUpdates (Comp.updateRenderer_ c d).2 = []) ∧
      (c.hasRendererRendered_ = false →
        rendererUpdates (Comp.updateRenderer_ c d).2 = []) ∧
      (d.forceUpdate = false →
        (Comp.updateRenderer_ c d).1.forceUpdateCallback_ = none) := by
  intro c d
  refine ⟨rfl, rfl, ?_, ?_, ?_⟩
  · intro h
    cases hf : d.forceUpdate <;>
      simp [Comp.updateRenderer_, hf, h, rendererUpdates]
  · intro h
    cases hf : d.forceUpdate <;>
      simp [Comp.updateRenderer_, hf, h, rendererUpdates]
  · intro h
    simp only [Comp.updateRenderer_, h, Bool.false_eq_true, if_false]
    split <;> rfl

/-- Witness for C6 on a rendered component with skipping on and data whose
forceUpdate is absent. -/
theorem Comp.updateRenderer_skip_spec_witness :
    rendererUpdates (Comp.updateRenderer_ demoCompSkip demoData).2 = [] ∧
    (Comp.updateRenderer_ demoCompSkip demoData).1.forceUpdateCallback_ = none :=
  ⟨(Comp.updateRenderer_skip_spec demoCompSkip demoData).2.2.1 rfl,
   (Comp.updateRenderer_skip_spec demoCompSkip demoData).2.2.2.2 rfl⟩

/-- C3: for a rendered component that is not skipping updates: with
SYNC_UPDATES false the batched stateChanged handler performs the single
renderer update with the whole batch and a stateKeyChanged event does
nothing; with SYNC_UPDATES true each stateKeyChanged event performs the
renderer update with that single key change and the batched handler
performs none; in both modes the batched handler runs syncState over the
changes and then emits stateSynced. -/
theorem Comp.stateChanged_sync_modes :
    ∀ (c : Comp) (ev : List KeyChange) (d : KeyChange),
      c.skipUpdates_ = false →
      c.hasRendererRendered_ = true →
      (c.syncUpdates_ = false →
        rendererUpdates (Comp.handleComponentStateChanged_ c ev).2 =
          [⟨ev, false⟩] ∧
        Comp.dispatchStateKeyChanged c d = (c, [])) ∧
      (c.syncUpdates_ = true →
        rendererUpdates (Comp.handleComponentStateChanged_ c ev).2 = [] ∧
        rendererUpdates (Comp.dispatchStateKeyChanged c d).2 = [⟨[d], false⟩]) ∧
      (∃ pre, (Comp.handleComponentStateChanged_ c ev).2 =
        pre ++ [Action.syncStateChanges ev, Action.emitStateSynced ev]) := by
  intro c ev d hskip hrend
  refine ⟨?_, ?_, ?_⟩
  · intro hs
    constructor
    · simp [Comp.handleComponentStateChanged_, Comp.hasSyncUpdates, hs,
        Comp.updateRenderer_, hskip, hrend, rendererUpdates]
    · simp [Comp.dispatchStateKeyChanged, Comp.hasSyncUpdates, hs]
  · intro hs
    constructor
    · simp [Comp.handleComponentStateChanged_, Comp.hasSyncUpdates, hs,
        rendererUpdates]
    · simp [Comp.dispatchStateKeyChanged, Comp.hasSyncUpdates, hs,
        Comp.handleComponentStateKeyChanged_, Comp.updateRenderer_,
        hskip, hrend, rendererUpdates]
  · exact ⟨(if ¬c.hasSyncUpdates then Comp.updateRenderer_ c ⟨ev, false⟩
      else (c, [])).2, rfl⟩

/-- Witness for C3 on a rendered batched-mode component. -/
theorem Comp.stateChanged_sync_modes_witness :
    rendererUpdates (Comp.handleComponentStateChanged_ demoCompAsync demoChanges).2 =
      [⟨demoChanges, false⟩] ∧
    Comp.dispatchStateKeyChanged demoCompAsync demoKeyChange = (demoCompAsync, []) :=
  (Comp.stateChanged_sync_modes demoCompAsync demoChanges demoKeyChange rfl rfl).1 rfl

/-- C9: assigning the element property a value that is defined and non-null
but neither a DOM element nor a string changes nothing and notifies
nothing; assigning the element already stored likewise produces no change
notification. -/
theorem Comp.setElement_noop_cases :
    ∀ (env : DomEnv) (c : Comp),
      Comp.setElement env c ElVal.otherV = (c, []) ∧
      (∀ e : El, c.elementValue_ = StoredEl.el e →
        Comp.setElement env c (ElVal.elV e) = (c, [])) := by
  intro env c
  constructor
  · rfl
  · intro e h
    simp [Comp.setElement, h]

/-- Witness for C9: re-assigning the stored element of a concrete
component. -/
theorem Comp.setElement_noop_cases_witness :
    Comp.setElement demoDomEnv demoCompEl (ElVal.elV demoEl) = (demoCompEl, []) :=
  (Comp.setElement_noop_cases demoDomEnv demoCompEl).2 demoEl rfl

/-! ## Trace lemmas feeding the constructor claim -/

theorem countCreated_attachElement (c : Comp) (parent sibling : Option El) :
    countCreated (Comp.attachElement c parent sibling) = 0 := by
  cases hel : c.elementValue_ <;>
    simp only [Comp.attachElement, hel] <;>
    first
      | rfl
      | (split <;> simp [countCreated])

theorem countRenderish_attachElement (c : Comp) (parent sibling : Option El) :
    countRenderish (Comp.attachElement c parent sibling) = 0 := by
  cases hel : c.elementValue_ <;>
    simp only [Comp.attachElement, hel] <;>
    first
      | rfl
      | (split <;> simp [countRenderish, Action.isRenderish])

theorem countCreated_attach (c : Comp) (parent sibling : Option El) :
    countCreated (Comp.attach c parent sibling).2 = 0 := by
  cases hd : c.inDocument <;>
    simp [Comp.attach, hd, countCreated_append, countCreated,
      countCreated_attachElement]

theorem countRenderish_attach (c : Comp) (parent sibling : Option El) :
    countRenderish (Comp.attach c parent sibling).2 = 0 := by
  cases hd : c.inDocument <;>
    simp [Comp.attach, hd, countRenderish_append, countRenderish,
      countRenderish_attachElement, Action.isRenderish]

theorem countCreated_renderComponent (env : DomEnv) (c : Comp) (parent : Option El) :
    countCreated (Comp.renderComponent env c parent).2 = 0 := by
  cases hr : c.hasRendererRendered_ <;>
    cases hs : env.serverSide <;>
    cases hdt : env.devToolsHook <;>
    simp [Comp.renderComponent, hr, hs, hdt, countCreated_append, countCreated,
      countCreated_attach]

theorem emitRender_mem_renderComponent (env : DomEnv) (c : Comp) (parent : Option El) :
    Action.emitRender ∈ (Comp.renderComponent env c parent).2 := by
  cases hr : c.hasRendererRendered_ <;>
    cases hs : env.serverSide <;>
    cases hdt : env.devToolsHook <;>
    simp [Comp.renderComponent, hr, hs, hdt]

theorem setElement_counts (env : DomEnv) (c : Comp) (val : ElVal)
    (h : c.componentCreated_ = false) :
    countCreated (Comp.setElement env c val).2 = 0 ∧
    countRenderish (Comp.setElement env c val).2 = 0 := by
  unfold Comp.setElement
  cases val <;> dsimp only <;> repeat' split
  all_goals
    simp [Comp.handleComponentElementChanged_, h, countCreated, countRenderish,
      Action.isRenderish]

theorem countCreated_componentCtor_false (env : DomEnv) (su : Bool)
    (config : Option InitConfig) :
    countCreated (Comp.componentCtor env su config ParentArg.falseV).2 = 1 := by
  have h1 := (setElement_counts env
    (Comp.initialComp su (config.getD ⟨ElVal.undef⟩))
    (config.getD ⟨ElVal.undef⟩).element rfl).1
  simp [Comp.componentCtor, countCreated_append, countCreated, h1]

/-- C7: every constructor invocation runs the created lifecycle exactly
once, with no rendering step before it, and renders the component right
afterwards unless parentElement is exactly false; static Component.render
normalizes its arguments (a DOM element given as configOrElement becomes
the parent, with null config), constructs the instance with rendering
suppressed, renders it exactly once via renderComponent, and returns the
rendered instance. -/
theorem Comp.ctor_and_staticRender_spec :
    ∀ (env : DomEnv) (su : Bool) (config : Option InitConfig) (parent : ParentArg),
      (∃ pre post,
        (Comp.componentCtor env su config parent).2 =
          pre ++ Action.lifecycleCreated :: post ∧
        countCreated pre = 0 ∧ countRenderish pre = 0 ∧ countCreated post = 0 ∧
        (parent = ParentArg.falseV → post = []) ∧
        (∀ p, parent = ParentArg.arg p → Action.emitRender ∈ post)) ∧
      (∀ (coe : Comp.ConfigOrEl) (element : Option El),
        (Comp.staticRender env su coe element).2 =
          (Comp.componentCtor env su (Comp.staticRenderArgs coe element).1
            ParentArg.falseV).2 ++
          (Comp.renderComponent env
            (Comp.componentCtor env su (Comp.staticRenderArgs coe element).1
              ParentArg.falseV).1
            (Comp.staticRenderArgs coe element).2).2 ∧
        countCreated (Comp.staticRender env su coe element).2 = 1 ∧
        Action.emitRender ∈ (Comp.staticRender env su coe element).2 ∧
        (Comp.staticRender env su coe element).1.wasRendered = true) ∧
      (∀ (e : El) (element : Option El),
        Comp.staticRenderArgs (Comp.ConfigOrEl.elArg e) element = (none, some e)) := by
  intro env su config parent
  have hcfg : (Comp.initialComp su (config.getD ⟨ElVal.undef⟩)).componentCreated_ = false :=
    rfl
  have hse := setElement_counts env
    (Comp.initialComp su (config.getD ⟨ElVal.undef⟩))
    (config.getD ⟨ElVal.undef⟩).element hcfg
  refine ⟨?_, ?_, ?_⟩
  · refine ⟨(Comp.setElement env (Comp.initialComp su (config.getD ⟨ElVal.undef⟩))
      (config.getD ⟨ElVal.undef⟩).element).2 ++
      [Action.setUpRendererAct, Action.setUpDataManagerAct,
       Action.setUpPortalAct, Action.addListenersAct], ?_⟩
    cases parent with
    | falseV =>
      refine ⟨[], ?_, ?_, ?_, rfl, fun _ => rfl, ?_⟩
      · simp [Comp.componentCtor]
      · simp [countCreated_append, countCreated, hse.1]
      · simp [countRenderish_append, countRenderish, Action.isRenderish, hse.2]
      · intro p hp
        exact ParentArg.noConfusion hp
    | arg p =>
      refine ⟨(Comp.renderComponent env
        { (Comp.setElement env (Comp.initialComp su (config.getD ⟨ElVal.undef⟩))
            (config.getD ⟨ElVal.undef⟩).element).1 with componentCreated_ := true }
        p).2, ?_, ?_, ?_, ?_, ?_, ?_⟩
      · simp [Comp.componentCtor]
      · simp [countCreated_append, countCreated, hse.1]
      · simp [countRenderish_append, countRenderish, Action.isRenderish, hse.2]
      · exact countCreated_renderComponent env _ p
      · intro hp
        exact ParentArg.noConfusion hp
      · intro p2 hp
        injection hp with h2
        subst h2
        exact emitRender_mem_renderComponent env _ _
  · intro coe element
    refine ⟨rfl, ?_, ?_, rfl⟩
    · simp [Comp.staticRender, countCreated_append,
        countCreated_componentCtor_false, countCreated_renderComponent]
    · exact List.mem_append.mpr (Or.inr (emitRender_mem_renderComponent env _ _))
  · intro e element
    rfl

/-- Witness for C7: static render of a concrete element argument. -/
theorem Comp.ctor_and_staticRender_spec_witness :
    countCreated (Comp.staticRender demoDomEnv false
      (Comp.ConfigOrEl.elArg demoEl) none).2 = 1 ∧
    Action.emitRender ∈ (Comp.staticRender demoDomEnv false
      (Comp.ConfigOrEl.elArg demoEl) none).2 ∧
    Comp.staticRenderArgs (Comp.ConfigOrEl.elArg demoEl) none = (none, some demoEl) :=
  ⟨((Comp.ctor_and_staticRender_spec demoDomEnv false none ParentArg.falseV).2.1
      (Comp.ConfigOrEl.elArg demoEl) none).2.1,
   ((Comp.ctor_and_staticRender_spec demoDomEnv false none ParentArg.falseV).2.1
      (Comp.ConfigOrEl.elArg demoEl) none).2.2.1,
   (Comp.ctor_and_staticRender_spec demoDomEnv false none ParentArg.falseV).2.2
      demoEl none⟩

end Marble
